import Mathlib

/-!
Verification development for the two MCP tool servers of the Fixie.run repository:
a blockchain monitor (src/mcp_servers/blockchain_monitor.py) and a Web3 data
aggregator (src/mcp_servers/web3_aggregator.py).

The Python code is shallowly embedded: JSON values become an inductive type,
every outbound interaction (RPC provider, HTTP session) is an oracle field of an
environment record returning an Except value (the .error case models a raised
exception at that call site), and each tool operation becomes a total Lean
function returning its result together with the list of outbound network calls
it attempted.  Integer-second timestamps stand in for datetime values.
-/

/-- JSON values as produced and consumed by the two servers. -/
inductive Json where
  | null
  | bool (b : Bool)
  | int (n : Int)
  | str (s : String)
  | arr (elems : List Json)
  | obj (fields : List (String × Json))

/-- A Python dict with string keys, in insertion order. -/
abbrev Dict := List (String × Json)

/-- Key lookup in a dict (Python d[k] / d.get(k) for our duplicate-free dicts). -/
def Dict.get? : Dict → String → Option Json
  | [], _ => none
  | (k, v) :: rest, key => if k = key then some v else Dict.get? rest key

/-- One attempted outbound network interaction. -/
inductive NetCall where
  | connProbe (chain : String)        -- w3.is_connected(): the provider probes its endpoint
  | rpcCall (method : String)         -- a JSON-RPC call through a web3 provider
  | getBlock (blockNum : Nat)         -- w3.eth.get_block(blockNum, full_transactions=True)
  | httpGet (url : String)            -- aiohttp session.get(url)
  | httpPost (url : String)           -- aiohttp session.post(url, json=payload)

/-- Python substring test (the `pat in s` operator) on character lists. -/
def listContains (p : List Char) : List Char → Bool
  | [] => p.isEmpty
  | c :: rest => p.isPrefixOf (c :: rest) || listContains p rest

/-- Python `pat in s` on strings. -/
def pyInStr (pat s : String) : Bool := listContains pat.data s.data

/-- The spec-level notion of "the string s contains pat as a substring". -/
def hasSubstr (s pat : String) : Prop :=
  ∃ l1 l2, s.data = l1 ++ (pat.data ++ l2)

/-- Hex digit test for address/number parsing. -/
def isHexDigitChar (c : Char) : Bool :=
  c.isDigit || ('a' ≤ c && c ≤ 'f') || ('A' ≤ c && c ≤ 'F')

/-- Modelled from the spec: Web3.is_address, the "checksum/format validity" test
applied to addresses (library code, not under src/).  Modelled as the
0x-prefixed 40-hex-digit format test; the mixed-case EIP-55 checksum
refinement (which needs keccak) is abstracted away, so this accepts a
superset of the real predicate but rejects exactly the malformed strings the
spec scenarios use. -/
def Web3.is_address (s : String) : Bool :=
  (s.length == 42) && ['0', 'x'].isPrefixOf s.data && (s.data.drop 2).all isHexDigitChar

namespace BlockchainMonitor

/-- The chains with a configured provider (the keys of self.providers). -/
def supportedChain (chain : String) : Bool :=
  chain == "polygon-zkevm" || chain == "scroll" || chain == "zksync"

/-- A transaction as delivered inside a block by w3.eth.get_block(.., full_transactions=True). -/
structure Tx where
  hash : String
  sender : String            -- tx['from']
  toAddr : Option String     -- tx['to'] (None for contract creation)
  value : Nat                -- wei
  gasPrice : Nat             -- wei

/-- A block with full transaction bodies. -/
structure BlockData where
  transactions : List Tx

/-- A decoded event log entry as returned by event_filter.get_all_entries(). -/
structure EventEntry where
  blockNumber : Nat
  transactionHash : String
  args : List (String × Json)

/-- Oracles for everything the monitor reaches outside its own code: the web3
provider calls (each Except's .error case is that call raising) and the pure
library conversions whose exact output the claims never constrain. -/
structure MonitorEnv where
  is_connected : String → Bool                       -- w3.is_connected() per chain
  block_number : Except String Nat                   -- w3.eth.block_number
  create_filter : Except String Unit                 -- contract.events.X.create_filter(...)
  get_all_entries : Except String (List EventEntry)  -- event_filter.get_all_entries()
  get_code : Except String String                    -- w3.eth.get_code(addr).hex(), "0x"-prefixed
  get_transaction_count : Except String Nat          -- w3.eth.get_transaction_count(addr)
  get_balance : Except String Nat                    -- w3.eth.get_balance(addr), wei
  get_block : Nat → Except String BlockData          -- w3.eth.get_block(n, full_transactions=True)
  checksum : String → String                         -- EIP-55 casing applied to a valid address
  from_wei_ether : Nat → String                      -- str(w3.from_wei(x, 'ether'))
  from_wei_gwei : Nat → String                       -- str(w3.from_wei(x, 'gwei'))
  now_iso : String                                   -- datetime.now().isoformat()

/-- Modelled from the spec: Web3.to_checksum_address (library code, not under
src/) raises a ValueError on strings failing address validation and returns
the checksum-cased address otherwise (casing supplied by the environment). -/
def toChecksumE (env : MonitorEnv) (s : String) : Except String String :=
  if Web3.is_address s then Except.ok (env.checksum s)
  else Except.error ("Unknown format " ++ s ++ ", attempted to normalize to checksum address")

/-- Python `a or b` for an optional int argument (None and 0 are falsy). -/
def pyOrInt (a : Option Int) (b : Int) : Int :=
  match a with
  | some v => if v = 0 then b else v
  | none => b

/-- BlockchainMonitor.monitor_events (blockchain_monitor.py lines 68-128). -/
def monitor_events (env : MonitorEnv) (contract_address chain event_name : String)
    (from_block : Option Int) : Dict × List NetCall :=
  if supportedChain chain then
    if env.is_connected chain then
      if Web3.is_address contract_address then
        match env.block_number with
        | Except.error e =>
          ([("error", Json.str e), ("chain", Json.str chain)],
           [NetCall.connProbe chain, NetCall.rpcCall "eth_blockNumber"])
        | Except.ok current_block =>
          if event_name = "Transfer" || event_name = "Staked" then
            match env.create_filter with
            | Except.error e =>
              ([("error", Json.str e), ("chain", Json.str chain)],
               [NetCall.connProbe chain, NetCall.rpcCall "eth_blockNumber",
                NetCall.rpcCall "eth_newFilter"])
            | Except.ok _ =>
              match env.get_all_entries with
              | Except.error e =>
                ([("error", Json.str e), ("chain", Json.str chain)],
                 [NetCall.connProbe chain, NetCall.rpcCall "eth_blockNumber",
                  NetCall.rpcCall "eth_newFilter", NetCall.rpcCall "eth_getFilterLogs"])
              | Except.ok events =>
                ([("chain", Json.str chain),
                  ("contract", Json.str (env.checksum contract_address)),
                  ("event_name", Json.str event_name),
                  ("from_block", Json.int (pyOrInt from_block ((current_block : Int) - 1000))),
                  ("to_block", Json.int current_block),
                  ("events_count", Json.int events.length),
                  ("events", Json.arr ((events.drop (events.length - 50)).map (fun ev =>
                    Json.obj [("block_number", Json.int ev.blockNumber),
                              ("transaction_hash", Json.str ev.transactionHash),
                              ("args", Json.obj ev.args),
                              ("timestamp", Json.str env.now_iso)])))],
                 [NetCall.connProbe chain, NetCall.rpcCall "eth_blockNumber",
                  NetCall.rpcCall "eth_newFilter", NetCall.rpcCall "eth_getFilterLogs"])
          else
            ([("error", Json.str ("Unknown event: " ++ event_name))],
             [NetCall.connProbe chain, NetCall.rpcCall "eth_blockNumber"])
      else
        ([("error", Json.str ("Invalid contract address: " ++ contract_address))],
         [NetCall.connProbe chain])
    else
      ([("error", Json.str ("Failed to connect to " ++ chain))], [NetCall.connProbe chain])
  else
    ([("error", Json.str ("Unsupported chain: " ++ chain))], [])

/-- The HIGH-severity SELFDESTRUCT finding of check_vulnerabilities. -/
def selfdestructFinding : Json :=
  Json.obj [("severity", Json.str "HIGH"), ("type", Json.str "SELFDESTRUCT"),
            ("description", Json.str "Contract contains SELFDESTRUCT opcode - can be destroyed")]

/-- The MEDIUM-severity DELEGATECALL warning of check_vulnerabilities. -/
def delegatecallFinding : Json :=
  Json.obj [("severity", Json.str "MEDIUM"), ("type", Json.str "DELEGATECALL"),
            ("description", Json.str "Contract uses DELEGATECALL - ensure proper access control")]

/-- The LOW-severity SIZE_LIMIT warning of check_vulnerabilities. -/
def sizeFinding (size : Nat) : Json :=
  Json.obj [("severity", Json.str "LOW"), ("type", Json.str "SIZE_LIMIT"),
            ("description", Json.str ("Contract size (" ++ toString size ++ " bytes) exceeds recommended limit"))]

/-- BlockchainMonitor.check_vulnerabilities (blockchain_monitor.py lines 130-185). -/
def check_vulnerabilities (env : MonitorEnv) (contract_address chain : String) :
    Dict × List NetCall :=
  if supportedChain chain then
    if env.is_connected chain then
      match toChecksumE env contract_address with
      | Except.error e => ([("error", Json.str e)], [NetCall.connProbe chain])
      | Except.ok addr =>
        match env.get_code with
        | Except.error e =>
          ([("error", Json.str e)], [NetCall.connProbe chain, NetCall.rpcCall "eth_getCode"])
        | Except.ok bytecode =>
          if bytecode = "0x" then
            ([("error", Json.str "No contract found at this address")],
             [NetCall.connProbe chain, NetCall.rpcCall "eth_getCode"])
          else
            ([("chain", Json.str chain),
              ("contract", Json.str addr),
              ("bytecode_size", Json.int (Int.ofNat (bytecode.length / 2))),
              ("vulnerabilities", Json.arr (if pyInStr "ff" bytecode then [selfdestructFinding] else [])),
              ("warnings", Json.arr
                ((if pyInStr "f4" bytecode then [delegatecallFinding] else []) ++
                 (if bytecode.length / 2 > 24576 then [sizeFinding (bytecode.length / 2)] else []))),
              ("scan_timestamp", Json.str env.now_iso),
              ("recommendation", Json.str "Run full audit with Slither or Mythril for production contracts")],
             [NetCall.connProbe chain, NetCall.rpcCall "eth_getCode"])
    else
      ([("error", Json.str ("Connection failed to " ++ chain))], [NetCall.connProbe chain])
  else
    ([("error", Json.str ("Connection failed to " ++ chain))], [])

/-- range(current_block, max(current_block - 100, 0), -1): the descending list of
block numbers the transaction scan may examine. -/
def scanRange (current_block : Nat) : List Nat :=
  (List.range (current_block - (current_block - 100))).map (fun i => current_block - i)

/-- tx['from'] == address or tx['to'] == address. -/
def txMatches (addr : String) (tx : Tx) : Bool :=
  tx.sender == addr || tx.toAddr == some addr

/-- The transaction record appended for a matching transaction. -/
def txRecord (env : MonitorEnv) (addr : String) (blockNum : Nat) (tx : Tx) : Json :=
  Json.obj [("hash", Json.str tx.hash),
            ("from", Json.str tx.sender),
            ("to", match tx.toAddr with | some a => Json.str a | none => Json.null),
            ("value", Json.str (env.from_wei_ether tx.value)),
            ("block", Json.int blockNum),
            ("gas_price", Json.str (env.from_wei_gwei tx.gasPrice)),
            ("type", Json.str (if tx.sender == addr then "sent" else "received"))]

/-- The inner loop over one block's transactions: append each matching
transaction and break as soon as the collected list reaches tx_count. -/
def scanTxs (env : MonitorEnv) (addr : String) (tx_count : Nat) (blockNum : Nat) :
    List Json → List Tx → List Json
  | acc, [] => acc
  | acc, tx :: rest =>
    if txMatches addr tx then
      if (acc ++ [txRecord env addr blockNum tx]).length ≥ tx_count then
        acc ++ [txRecord env addr blockNum tx]
      else
        scanTxs env addr tx_count blockNum (acc ++ [txRecord env addr blockNum tx]) rest
    else
      scanTxs env addr tx_count blockNum acc rest

/-- Outcome of the backward block scan: the records collected, the block numbers
actually fetched (in order), and the message of the exception that aborted the
scan, if any. -/
structure ScanOutcome where
  collected : List Json
  fetched : List Nat
  fail : Option String

/-- The outer loop over the descending block range, with the early break once
tx_count records are collected; a raising get_block aborts the whole scan. -/
def scanBlocks (env : MonitorEnv) (addr : String) (tx_count : Nat) :
    List Nat → List Json → ScanOutcome
  | [], acc => ⟨acc, [], none⟩
  | b :: rest, acc =>
    match env.get_block b with
    | Except.error e => ⟨acc, [b], some e⟩
    | Except.ok blk =>
      if (scanTxs env addr tx_count b acc blk.transactions).length ≥ tx_count then
        ⟨scanTxs env addr tx_count b acc blk.transactions, [b], none⟩
      else
        ⟨(scanBlocks env addr tx_count rest (scanTxs env addr tx_count b acc blk.transactions)).collected,
         b :: (scanBlocks env addr tx_count rest (scanTxs env addr tx_count b acc blk.transactions)).fetched,
         (scanBlocks env addr tx_count rest (scanTxs env addr tx_count b acc blk.transactions)).fail⟩

/-- BlockchainMonitor.track_transactions (blockchain_monitor.py lines 187-243). -/
def track_transactions (env : MonitorEnv) (address chain : String) (tx_count : Nat) :
    Dict × List NetCall :=
  if supportedChain chain then
    if env.is_connected chain then
      match toChecksumE env address with
      | Except.error e => ([("error", Json.str e)], [NetCall.connProbe chain])
      | Except.ok addr =>
        match env.get_transaction_count with
        | Except.error e =>
          ([("error", Json.str e)],
           [NetCall.connProbe chain, NetCall.rpcCall "eth_getTransactionCount"])
        | Except.ok nonce =>
          match env.get_balance with
          | Except.error e =>
            ([("error", Json.str e)],
             [NetCall.connProbe chain, NetCall.rpcCall "eth_getTransactionCount",
              NetCall.rpcCall "eth_getBalance"])
          | Except.ok balance_wei =>
            match env.block_number with
            | Except.error e =>
              ([("error", Json.str e)],
               [NetCall.connProbe chain, NetCall.rpcCall "eth_getTransactionCount",
                NetCall.rpcCall "eth_getBalance", NetCall.rpcCall "eth_blockNumber"])
            | Except.ok current_block =>
              match (scanBlocks env addr tx_count (scanRange current_block) []).fail with
              | some e =>
                ([("error", Json.str e)],
                 [NetCall.connProbe chain, NetCall.rpcCall "eth_getTransactionCount",
                  NetCall.rpcCall "eth_getBalance", NetCall.rpcCall "eth_blockNumber"] ++
                 (scanBlocks env addr tx_count (scanRange current_block) []).fetched.map NetCall.getBlock)
              | none =>
                ([("chain", Json.str chain),
                  ("address", Json.str addr),
                  ("balance_eth", Json.str (env.from_wei_ether balance_wei)),
                  ("transaction_count", Json.int nonce),
                  ("recent_transactions", Json.arr
                    ((scanBlocks env addr tx_count (scanRange current_block) []).collected.take tx_count)),
                  ("timestamp", Json.str env.now_iso)],
                 [NetCall.connProbe chain, NetCall.rpcCall "eth_getTransactionCount",
                  NetCall.rpcCall "eth_getBalance", NetCall.rpcCall "eth_blockNumber"] ++
                 (scanBlocks env addr tx_count (scanRange current_block) []).fetched.map NetCall.getBlock)
    else
      ([("error", Json.str ("Connection failed to " ++ chain))], [NetCall.connProbe chain])
  else
    ([("error", Json.str ("Connection failed to " ++ chain))], [])

/-- Length of the recent_transactions array of a result (0 when absent). -/
def resultTxLen (d : Dict) : Nat :=
  match Dict.get? d "recent_transactions" with
  | some (Json.arr l) => l.length
  | _ => 0

/-- Whether a network call is a block fetch. -/
def isGetBlockCall : NetCall → Bool
  | NetCall.getBlock _ => true
  | _ => false

/-- Number of block fetches in a call trace. -/
def countGetBlock (calls : List NetCall) : Nat :=
  (calls.filter isGetBlockCall).length

end BlockchainMonitor

namespace Web3Aggregator

def DEFILLAMA_BASE_URL : String := "https://api.llama.fi"
def COINGECKO_BASE_URL : String := "https://api.coingecko.com/api/v3"
def ZKEVM_RPC_URL : String := "https://zkevm-rpc.com"

/-- An HTTP response: status code and parsed JSON body.  A request whose
transport fails, times out, or whose body fails to parse as JSON is modelled
by the oracle returning Except.error instead. -/
structure HttpResponse where
  status : Nat
  body : Json

/-- Oracles for the aggregator's outbound HTTP session and for the wall clock
(datetime.now() as whole seconds since the epoch, plus its isoformat text). -/
structure AggEnv where
  http_get : String → Except String HttpResponse
  http_post : String → Json → Except String HttpResponse
  now : Nat
  now_iso : String

/-- The in-memory cache: key to (fetch timestamp in seconds, cached payload). -/
structure AggState where
  cache : String → Option (Nat × Json)

/-- The cache of a freshly constructed Web3Aggregator (self.cache = \x7b\x7d). -/
def initState : AggState := ⟨fun _ => none⟩

/-- Python (datetime.now() - cached_time).seconds for integer-second datetimes
with now ≥ earlier: timedelta.seconds is the seconds-within-a-day component of
the difference (total seconds modulo 86400), NOT the total elapsed seconds. -/
def tdSeconds (now earlier : Nat) : Nat := (now - earlier) % 86400

/-- The message of the exception Python raises for d.get(...) on a non-dict
value; each embedding below matches on the JSON value directly: an object
yields the stored value (or the given default when the key is absent), any
other value raises. -/
def attrErr : String := "AttributeError: object has no attribute get"

/-- Numeric value of a hex digit. -/
def hexDigitVal (c : Char) : Nat :=
  if c.isDigit then c.toNat - 48
  else if 'a' ≤ c && c ≤ 'f' then c.toNat - 87
  else c.toNat - 55

/-- Modelled from the spec: Python int(s, 16) on the hex-string forms a JSON-RPC
endpoint returns - an optional "0x"/"0X" prefix followed by one or more hex
digits; anything else raises ValueError.  (Sign, underscores and surrounding
whitespace, which RPC results never carry, are not modelled.)
The digit list: an optional 0x/0X prefix is stripped first. -/
def hexCore (l : List Char) : List Char :=
  if ['0', 'x'].isPrefixOf l || ['0', 'X'].isPrefixOf l then l.drop 2 else l

/-- Python int(s, 16) itself: nonempty all-hex digit core, or ValueError. -/
def pyIntStr16 (s : String) : Except String Int :=
  if (hexCore s.data).isEmpty then
    Except.error ("invalid literal for int() with base 16: " ++ s)
  else if (hexCore s.data).all isHexDigitChar then
    Except.ok (Int.ofNat ((hexCore s.data).foldl (fun a c => 16 * a + hexDigitVal c) 0))
  else
    Except.error ("invalid literal for int() with base 16: " ++ s)

/-- Python int(x, 16) applied to a JSON value: only strings are accepted. -/
def pyIntJson16 : Json → Except String Int
  | Json.str s => pyIntStr16 s
  | _ => Except.error "TypeError: int() can't convert non-string with explicit base"

/-- The DeFiLlama URL chosen by fetch_tvl. -/
def tvlUrl (protocol : String) : String :=
  if protocol = "all" then DEFILLAMA_BASE_URL ++ "/tvl"
  else DEFILLAMA_BASE_URL ++ "/protocol/" ++ protocol

/-- The cache-miss path of fetch_tvl: perform the GET, cache on status 200. -/
def fetchTvlFresh (env : AggEnv) (st : AggState) (protocol : String) :
    Json × AggState × List NetCall :=
  match env.http_get (tvlUrl protocol) with
  | Except.error e =>
    (Json.obj [("error", Json.str e), ("protocol", Json.str protocol)], st,
     [NetCall.httpGet (tvlUrl protocol)])
  | Except.ok resp =>
    if resp.status = 200 then
      (resp.body,
       ⟨fun k => if k = "tvl_" ++ protocol then some (env.now, resp.body) else st.cache k⟩,
       [NetCall.httpGet (tvlUrl protocol)])
    else
      (Json.obj [("error", Json.str ("HTTP " ++ toString resp.status)),
                 ("protocol", Json.str protocol)], st,
       [NetCall.httpGet (tvlUrl protocol)])

/-- Web3Aggregator.fetch_tvl (web3_aggregator.py lines 45-67). -/
def fetch_tvl (env : AggEnv) (st : AggState) (protocol : String) :
    Json × AggState × List NetCall :=
  match st.cache ("tvl_" ++ protocol) with
  | some (cached_time, data) =>
    if tdSeconds env.now cached_time < 3600 then (data, st, [])
    else fetchTvlFresh env st protocol
  | none => fetchTvlFresh env st protocol

/-- Web3Aggregator.get_protocol_data (web3_aggregator.py lines 69-89). -/
def get_protocol_data (env : AggEnv) (protocol_name : String) : Dict × List NetCall :=
  match env.http_get (DEFILLAMA_BASE_URL ++ "/protocol/" ++ protocol_name) with
  | Except.error e =>
    ([("error", Json.str e)], [NetCall.httpGet (DEFILLAMA_BASE_URL ++ "/protocol/" ++ protocol_name)])
  | Except.ok resp =>
    if resp.status = 200 then
      match resp.body with
      | Json.obj kvs =>
        ([("name", (Dict.get? kvs "name").getD Json.null),
          ("symbol", (Dict.get? kvs "symbol").getD Json.null),
          ("tvl", (Dict.get? kvs "tvl").getD Json.null),
          ("chainTvls", (Dict.get? kvs "chainTvls").getD (Json.obj [])),
          ("change_1h", (Dict.get? kvs "change_1h").getD Json.null),
          ("change_1d", (Dict.get? kvs "change_1d").getD Json.null),
          ("change_7d", (Dict.get? kvs "change_7d").getD Json.null),
          ("mcap", (Dict.get? kvs "mcap").getD Json.null)],
         [NetCall.httpGet (DEFILLAMA_BASE_URL ++ "/protocol/" ++ protocol_name)])
      | _ =>
        ([("error", Json.str attrErr)],
         [NetCall.httpGet (DEFILLAMA_BASE_URL ++ "/protocol/" ++ protocol_name)])
    else
      ([("error", Json.str ("Protocol " ++ protocol_name ++ " not found"))],
       [NetCall.httpGet (DEFILLAMA_BASE_URL ++ "/protocol/" ++ protocol_name)])

/-- The rpc_urls table of query_blockchain with its .get default. -/
def rpcUrlFor (chain : String) : String :=
  if chain = "polygon-zkevm" then "https://zkevm-rpc.com"
  else if chain = "scroll" then "https://rpc.scroll.io"
  else if chain = "zksync" then "https://mainnet.era.zksync.io"
  else ZKEVM_RPC_URL

/-- The chains explicitly listed in query_blockchain's rpc_urls table. -/
def supportedAggChain (chain : String) : Bool :=
  chain == "polygon-zkevm" || chain == "scroll" || chain == "zksync"

/-- The JSON-RPC 2.0 payload query_blockchain posts. -/
def rpcPayload (method : String) : Json :=
  Json.obj [("jsonrpc", Json.str "2.0"), ("method", Json.str method),
            ("params", Json.arr []), ("id", Json.int 1)]

/-- Web3Aggregator.query_blockchain (web3_aggregator.py lines 91-121). -/
def query_blockchain (env : AggEnv) (chain method : String) : Dict × List NetCall :=
  match env.http_post (rpcUrlFor chain) (rpcPayload method) with
  | Except.error e =>
    ([("error", Json.str e), ("chain", Json.str chain)], [NetCall.httpPost (rpcUrlFor chain)])
  | Except.ok resp =>
    if resp.status = 200 then
      match resp.body with
      | Json.obj kvs =>
        if method = "eth_blockNumber" then
          match pyIntJson16 ((Dict.get? kvs "result").getD (Json.str "0x0")) with
          | Except.error e =>
            ([("error", Json.str e), ("chain", Json.str chain)],
             [NetCall.httpPost (rpcUrlFor chain)])
          | Except.ok n =>
            ([("chain", Json.str chain), ("method", Json.str method),
              ("result", (Dict.get? kvs "result").getD Json.null),
              ("block_number", Json.int n)],
             [NetCall.httpPost (rpcUrlFor chain)])
        else
          ([("chain", Json.str chain), ("method", Json.str method),
            ("result", (Dict.get? kvs "result").getD Json.null),
            ("block_number", Json.null)],
           [NetCall.httpPost (rpcUrlFor chain)])
      | _ =>
        ([("error", Json.str attrErr), ("chain", Json.str chain)],
         [NetCall.httpPost (rpcUrlFor chain)])
    else
      ([("error", Json.str ("RPC call failed: " ++ toString resp.status))],
       [NetCall.httpPost (rpcUrlFor chain)])

/-- The CoinGecko simple/price URL with its query parameters. -/
def priceUrl (token_id : String) : String :=
  COINGECKO_BASE_URL ++ "/simple/price?ids=" ++ token_id ++
    "&vs_currencies=usd&include_24hr_change=true&include_market_cap=true"

/-- The result dict get_token_price builds from a 200 response body
(data.get(token_id, \x7b\x7d).get("usd") and friends): raises on a non-dict
body, and on a non-dict stored under the token id; otherwise each missing
field becomes null. -/
def buildPriceResult (env : AggEnv) (token_id : String) (body : Json) : Except String Dict :=
  match body with
  | Json.obj kvs =>
    match (Dict.get? kvs token_id).getD (Json.obj []) with
    | Json.obj entry =>
      Except.ok [("token", Json.str token_id),
                 ("price_usd", (Dict.get? entry "usd").getD Json.null),
                 ("change_24h", (Dict.get? entry "usd_24h_change").getD Json.null),
                 ("market_cap", (Dict.get? entry "usd_market_cap").getD Json.null),
                 ("timestamp", Json.str env.now_iso)]
    | _ => Except.error attrErr
  | _ => Except.error attrErr

/-- The cache-miss path of get_token_price: GET, build the result, cache on 200. -/
def getPriceFresh (env : AggEnv) (st : AggState) (token_id : String) :
    Json × AggState × List NetCall :=
  match env.http_get (priceUrl token_id) with
  | Except.error e =>
    (Json.obj [("error", Json.str e)], st, [NetCall.httpGet (priceUrl token_id)])
  | Except.ok resp =>
    if resp.status = 200 then
      match buildPriceResult env token_id resp.body with
      | Except.error e =>
        (Json.obj [("error", Json.str e)], st, [NetCall.httpGet (priceUrl token_id)])
      | Except.ok d =>
        (Json.obj d,
         ⟨fun k => if k = "price_" ++ token_id then some (env.now, Json.obj d) else st.cache k⟩,
         [NetCall.httpGet (priceUrl token_id)])
    else
      (Json.obj [("error", Json.str ("CoinGecko API error: " ++ toString resp.status))], st,
       [NetCall.httpGet (priceUrl token_id)])

/-- Web3Aggregator.get_token_price (web3_aggregator.py lines 123-155). -/
def get_token_price (env : AggEnv) (st : AggState) (token_id : String) :
    Json × AggState × List NetCall :=
  match st.cache ("price_" ++ token_id) with
  | some (cached_time, data) =>
    if tdSeconds env.now cached_time < 300 then (data, st, [])
    else getPriceFresh env st token_id
  | none => getPriceFresh env st token_id

end Web3Aggregator

namespace BlockchainMonitor

/-- A format-valid sample address: "0x" followed by forty hex digits. -/
def addrA : String := "0x" ++ String.mk (List.replicate 40 'a')

/-- A monitor environment in which every provider call raises with message m
(the connectivity probe itself succeeds; web3's is_connected reports a Bool). -/
def raiseMonEnv (m : String) : MonitorEnv :=
  { is_connected := fun _ => true,
    block_number := Except.error m,
    create_filter := Except.error m,
    get_all_entries := Except.error m,
    get_code := Except.error m,
    get_transaction_count := Except.error m,
    get_balance := Except.error m,
    get_block := fun _ => Except.error m,
    checksum := fun s => s,
    from_wei_ether := fun _ => "0",
    from_wei_gwei := fun _ => "0",
    now_iso := "1970-01-01T00:00:00" }

/-- A connected environment whose eth_getCode call returns the given bytecode. -/
def monEnvWithCode (code : String) : MonitorEnv :=
  { raiseMonEnv "unreachable" with get_code := Except.ok code }

/-- A deployed bytecode of exactly 24576 bytes: the "0x" prefix followed by
49152 hex digits, as HexBytes.hex() returns it. -/
def codeAt24576 : String := "0x" ++ String.mk (List.replicate 49152 '0')

/-- A connected environment for the transaction tracker: head block 5, and every
block carrying exactly one transaction sent by addrA. -/
def trackEnv : MonitorEnv :=
  { raiseMonEnv "unreachable" with
    get_transaction_count := Except.ok 3,
    get_balance := Except.ok 1000,
    block_number := Except.ok 5,
    get_block := fun _ => Except.ok ⟨[⟨"0xh1", addrA, some "0xbb", 5, 1⟩]⟩ }

end BlockchainMonitor

namespace Web3Aggregator

/-- An aggregator environment in which every HTTP request raises with message m. -/
def raiseAggEnv (m : String) : AggEnv :=
  { http_get := fun _ => Except.error m,
    http_post := fun _ _ => Except.error m,
    now := 0,
    now_iso := "1970-01-01T00:00:00" }

/-- An aggregator environment whose GETs always answer 200 with body 42, at
clock time t. -/
def tvlOkEnv (t : Nat) : AggEnv :=
  { http_get := fun _ => Except.ok ⟨200, Json.int 42⟩,
    http_post := fun _ _ => Except.error "unreachable",
    now := t,
    now_iso := "t" }

/-- An aggregator environment whose POSTs answer 200 with body
\x7b"result": "0x10"\x7d, as an RPC endpoint would. -/
def rpcEnv : AggEnv :=
  { http_get := fun _ => Except.error "unreachable",
    http_post := fun _ _ => Except.ok ⟨200, Json.obj [("result", Json.str "0x10")]⟩,
    now := 0,
    now_iso := "t" }

/-- An aggregator environment whose GETs answer 200 with a CoinGecko-shaped
price body for "ethereum", at clock time t. -/
def priceOkEnv (t : Nat) : AggEnv :=
  { http_get := fun _ => Except.ok ⟨200,
      Json.obj [("ethereum", Json.obj [("usd", Json.int 3000),
        ("usd_24h_change", Json.int 2), ("usd_market_cap", Json.int 1000)])]⟩,
    http_post := fun _ _ => Except.error "unreachable",
    now := t,
    now_iso := "t" }

end Web3Aggregator

/-- Membership of a value in a named array field of a result dict. -/
def dictArrContains (d : Dict) (k : String) (j : Json) : Prop :=
  ∃ l, Dict.get? d k = some (Json.arr l) ∧ j ∈ l

/-- The result is an error object: its first field is an "error" string. -/
def isErrDict (d : Dict) : Prop :=
  ∃ s rest, d = ("error", Json.str s) :: rest

/-- A well-formed tool result: either an error object whose error field is a
string, or a result carrying no error field at all. -/
def dictOkOrErr (d : Dict) : Prop :=
  isErrDict d ∨ Dict.get? d "error" = none

/-- Every fetch_tvl result is an error object naming the protocol, a cached
payload, or the body of a status-200 response. -/
def tvlShape (env : Web3Aggregator.AggEnv) (st : Web3Aggregator.AggState) (protocol : String) : Prop :=
  (∃ s, (Web3Aggregator.fetch_tvl env st protocol).1 =
      Json.obj [("error", Json.str s), ("protocol", Json.str protocol)]) ∨
  (∃ t d, st.cache ("tvl_" ++ protocol) = some (t, d) ∧
      (Web3Aggregator.fetch_tvl env st protocol).1 = d) ∨
  (∃ body, env.http_get (Web3Aggregator.tvlUrl protocol) = Except.ok ⟨200, body⟩ ∧
      (Web3Aggregator.fetch_tvl env st protocol).1 = body)

/-- Every get_token_price result is an error object, a cached payload, or the
result dict built from a status-200 response. -/
def priceShape (env : Web3Aggregator.AggEnv) (st : Web3Aggregator.AggState) (token_id : String) : Prop :=
  (∃ s, (Web3Aggregator.get_token_price env st token_id).1 =
      Json.obj [("error", Json.str s)]) ∨
  (∃ t d, st.cache ("price_" ++ token_id) = some (t, d) ∧
      (Web3Aggregator.get_token_price env st token_id).1 = d) ∨
  (∃ body d, env.http_get (Web3Aggregator.priceUrl token_id) = Except.ok ⟨200, body⟩ ∧
      Web3Aggregator.buildPriceResult env token_id body = Except.ok d ∧
      (Web3Aggregator.get_token_price env st token_id).1 = Json.obj d)

/-! ## General lemmas about the substring test -/

theorem isPrefixOf_eq_true_iff : ∀ (p l : List Char), p.isPrefixOf l = true ↔ ∃ t, l = p ++ t := by
  intro p
  induction p with
  | nil =>
    intro l
    simp [List.isPrefixOf]
  | cons c cs ih =>
    intro l
    cases l with
    | nil => simp [List.isPrefixOf]
    | cons b bs =>
      simp only [List.isPrefixOf, Bool.and_eq_true, beq_iff_eq, ih, List.cons_append,
        List.cons.injEq]
      constructor
      · rintro ⟨hcb, t, ht⟩
        exact ⟨t, hcb.symm, ht⟩
      · rintro ⟨t, hbc, ht⟩
        exact ⟨hbc.symm, t, ht⟩

theorem listContains_eq_true_iff :
    ∀ (l p : List Char), listContains p l = true ↔ ∃ l1 l2, l = l1 ++ (p ++ l2) := by
  intro l
  induction l with
  | nil =>
    intro p
    cases p with
    | nil =>
      simp only [listContains, List.isEmpty_nil, eq_self_iff_true, true_iff]
      exact ⟨[], [], rfl⟩
    | cons c cs =>
      simp [listContains, eq_comm (a := ([] : List Char))]
  | cons a l ih =>
    intro p
    simp only [listContains, Bool.or_eq_true, isPrefixOf_eq_true_iff, ih]
    constructor
    · rintro (⟨t, ht⟩ | ⟨l1, l2, h⟩)
      · exact ⟨[], t, by simpa using ht⟩
      · exact ⟨a :: l1, l2, by simp [h]⟩
    · rintro ⟨l1, l2, h⟩
      cases l1 with
      | nil => exact Or.inl ⟨l2, by simpa using h⟩
      | cons c l1 =>
        simp only [List.cons_append, List.cons.injEq] at h
        exact Or.inr ⟨l1, l2, h.2⟩

theorem pyInStr_iff (pat s : String) : pyInStr pat s = true ↔ hasSubstr s pat :=
  listContains_eq_true_iff s.data pat.data

theorem mem_of_hasSubstr {s pat : String} (h : hasSubstr s pat) :
    ∀ a ∈ pat.data, a ∈ s.data := by
  rcases h with ⟨l1, l2, hs⟩
  intro a ha
  rw [hs]
  simp [ha]

/-! ## Claims -/

open BlockchainMonitor Web3Aggregator

/-- C7: when the fetched bytecode equals the empty-contract sentinel "0x",
check_vulnerabilities returns an object whose error field is
"No contract found at this address" (indeed exactly that single-field object)
and which contains no vulnerabilities list. -/
theorem c7_empty_contract (env : MonitorEnv) (contract_address chain : String)
    (hchain : supportedChain chain = true)
    (hconn : env.is_connected chain = true)
    (haddr : Web3.is_address contract_address = true)
    (hcode : env.get_code = Except.ok "0x") :
    (check_vulnerabilities env contract_address chain).1 =
      [("error", Json.str "No contract found at this address")] ∧
    Dict.get? (check_vulnerabilities env contract_address chain).1 "vulnerabilities" = none := by
  simp [check_vulnerabilities, hchain, hconn, toChecksumE, haddr, hcode, Dict.get?]

/-- C7 witness: a concrete connected environment whose eth_getCode returns "0x". -/
theorem c7_empty_contract_w :
    (check_vulnerabilities (monEnvWithCode "0x") addrA "polygon-zkevm").1 =
      [("error", Json.str "No contract found at this address")] ∧
    Dict.get? (check_vulnerabilities (monEnvWithCode "0x") addrA "polygon-zkevm").1
      "vulnerabilities" = none :=
  c7_empty_contract (monEnvWithCode "0x") addrA "polygon-zkevm" (by decide) rfl (by decide) rfl

theorem delegatecall_ne_size (n : Nat) : delegatecallFinding ≠ sizeFinding n := by
  simp [delegatecallFinding, sizeFinding]

/-- C5: after a successful bytecode fetch, the result of check_vulnerabilities
carries the HIGH SELFDESTRUCT finding in its vulnerabilities list iff the
bytecode hex string contains the substring "ff", and the MEDIUM DELEGATECALL
finding in its warnings list iff it contains the substring "f4". -/
theorem c5_opcode_findings (env : MonitorEnv) (contract_address chain bytecode : String)
    (hchain : supportedChain chain = true)
    (hconn : env.is_connected chain = true)
    (haddr : Web3.is_address contract_address = true)
    (hcode : env.get_code = Except.ok bytecode) :
    (dictArrContains (check_vulnerabilities env contract_address chain).1 "vulnerabilities"
        selfdestructFinding ↔ hasSubstr bytecode "ff") ∧
    (dictArrContains (check_vulnerabilities env contract_address chain).1 "warnings"
        delegatecallFinding ↔ hasSubstr bytecode "f4") := by
  by_cases h0 : bytecode = "0x"
  · subst h0
    have hres : (check_vulnerabilities env contract_address chain).1 =
        [("error", Json.str "No contract found at this address")] := by
      simp [check_vulnerabilities, hchain, hconn, toChecksumE, haddr, hcode]
    constructor
    · refine iff_of_false (fun hcontains => ?_) (fun hsub => ?_)
      · rcases hcontains with ⟨l, hl, _⟩
        rw [hres] at hl
        simp [Dict.get?] at hl
      · exact absurd ((pyInStr_iff "ff" "0x").mpr hsub) (by decide)
    · refine iff_of_false (fun hcontains => ?_) (fun hsub => ?_)
      · rcases hcontains with ⟨l, hl, _⟩
        rw [hres] at hl
        simp [Dict.get?] at hl
      · exact absurd ((pyInStr_iff "f4" "0x").mpr hsub) (by decide)
  · have hvul : Dict.get? (check_vulnerabilities env contract_address chain).1 "vulnerabilities" =
        some (Json.arr (if pyInStr "ff" bytecode then [selfdestructFinding] else [])) := by
      simp [check_vulnerabilities, hchain, hconn, toChecksumE, haddr, hcode, h0, Dict.get?]
    have hwarn : Dict.get? (check_vulnerabilities env contract_address chain).1 "warnings" =
        some (Json.arr ((if pyInStr "f4" bytecode then [delegatecallFinding] else []) ++
          (if bytecode.length / 2 > 24576 then [sizeFinding (bytecode.length / 2)] else []))) := by
      simp [check_vulnerabilities, hchain, hconn, toChecksumE, haddr, hcode, h0, Dict.get?]
    constructor
    · by_cases hff : pyInStr "ff" bytecode = true
      · refine iff_of_true ⟨[selfdestructFinding], ?_, by simp⟩ ((pyInStr_iff "ff" bytecode).mp hff)
        rw [hvul, hff]
        simp
      · rw [Bool.not_eq_true] at hff
        refine iff_of_false (fun hcontains => ?_) (fun hsub => ?_)
        · rcases hcontains with ⟨l, hl, hmem⟩
          rw [hvul] at hl
          simp [hff] at hl
          subst hl
          simp at hmem
        · rw [(pyInStr_iff "ff" bytecode).mpr hsub] at hff
          simp at hff
    · by_cases hf4 : pyInStr "f4" bytecode = true
      · refine iff_of_true ⟨_, hwarn, ?_⟩ ((pyInStr_iff "f4" bytecode).mp hf4)
        rw [hf4]
        simp
      · rw [Bool.not_eq_true] at hf4
        refine iff_of_false (fun hcontains => ?_) (fun hsub => ?_)
        · rcases hcontains with ⟨l, hl, hmem⟩
          rw [hwarn] at hl
          simp [hf4] at hl
          subst hl
          by_cases hsz : bytecode.length / 2 > 24576
          · rw [if_pos hsz] at hmem
            simp at hmem
            exact delegatecall_ne_size _ hmem
          · rw [if_neg hsz] at hmem
            simp at hmem
        · rw [(pyInStr_iff "f4" bytecode).mpr hsub] at hf4
          simp at hf4

/-- C5 witness: concrete bytecode "0xff11f4" on a connected environment
produces both the SELFDESTRUCT and the DELEGATECALL findings. -/
theorem c5_opcode_findings_w :
    dictArrContains (check_vulnerabilities (monEnvWithCode "0xff11f4") addrA "polygon-zkevm").1
      "vulnerabilities" selfdestructFinding ∧
    dictArrContains (check_vulnerabilities (monEnvWithCode "0xff11f4") addrA "polygon-zkevm").1
      "warnings" delegatecallFinding := by
  have h := c5_opcode_findings (monEnvWithCode "0xff11f4") addrA "polygon-zkevm" "0xff11f4"
    (by decide) rfl (by decide) rfl
  exact ⟨h.1.mpr ⟨['0', 'x'], ['1', '1', 'f', '4'], rfl⟩,
         h.2.mpr ⟨['0', 'x', 'f', 'f', '1', '1'], [], rfl⟩⟩

theorem codeAt24576_data : codeAt24576.data = '0' :: 'x' :: List.replicate 49152 '0' := rfl

theorem codeAt24576_len : codeAt24576.length = 49154 := by
  show codeAt24576.data.length = 49154
  rw [codeAt24576_data, List.length_cons, List.length_cons, List.length_replicate]

theorem codeAt24576_no_ff : pyInStr "ff" codeAt24576 = false := by
  rw [Bool.eq_false_iff]
  intro h
  rcases (listContains_eq_true_iff _ _).mp h with ⟨l1, l2, hdata⟩
  have hmem : 'f' ∈ codeAt24576.data := by
    rw [hdata]
    simp only [List.mem_append]
    right
    left
    decide
  rw [codeAt24576_data] at hmem
  simp only [List.mem_cons, List.mem_replicate] at hmem
  rcases hmem with h1 | h1 | ⟨-, h1⟩ <;> exact absurd h1 (by decide)

theorem codeAt24576_no_f4 : pyInStr "f4" codeAt24576 = false := by
  rw [Bool.eq_false_iff]
  intro h
  rcases (listContains_eq_true_iff _ _).mp h with ⟨l1, l2, hdata⟩
  have hmem : 'f' ∈ codeAt24576.data := by
    rw [hdata]
    simp only [List.mem_append]
    right
    left
    decide
  rw [codeAt24576_data] at hmem
  simp only [List.mem_cons, List.mem_replicate] at hmem
  rcases hmem with h1 | h1 | ⟨-, h1⟩ <;> exact absurd h1 (by decide)

/-- C2 (code_bug evaluation): the fetched bytecode "0x" followed by exactly
49152 hex digits is a contract of exactly 24576 bytes, yet check_vulnerabilities
computes bytecode_size = len(hex_string)//2 = 24577 - the two prefix characters
are counted - and therefore DOES emit the LOW SIZE_LIMIT warning at the
boundary the spec says must not trigger it. -/
theorem c2_size_boundary :
    (check_vulnerabilities (monEnvWithCode codeAt24576) addrA "polygon-zkevm").1 =
      [("chain", Json.str "polygon-zkevm"),
       ("contract", Json.str addrA),
       ("bytecode_size", Json.int 24577),
       ("vulnerabilities", Json.arr []),
       ("warnings", Json.arr [sizeFinding 24577]),
       ("scan_timestamp", Json.str "1970-01-01T00:00:00"),
       ("recommendation", Json.str "Run full audit with Slither or Mythril for production contracts")] ∧
    codeAt24576.length = 2 + 49152 := by
  have hne : ¬(codeAt24576 = "0x") := by
    intro h
    have hl := congrArg String.length h
    rw [codeAt24576_len] at hl
    exact absurd hl (by decide)
  have hsz : codeAt24576.length / 2 = 24577 := by
    rw [codeAt24576_len]
  have haddr : Web3.is_address addrA = true := by decide
  constructor
  · simp [check_vulnerabilities, toChecksumE, monEnvWithCode, raiseMonEnv, haddr, hne,
      codeAt24576_no_ff, codeAt24576_no_f4, hsz, supportedChain]
  · rw [codeAt24576_len]

/-- C3 (code_bug evaluation): fetch_tvl("aave") succeeds at time 0 (one outbound
GET, result cached); invoked again 24 hours later - far past the 1-hour
window - the staleness test (now - cached_time).seconds < 3600 sees the
seconds-within-a-day component 86400 % 86400 = 0, so the call is served from
the cache and issues NO outbound network call. -/
theorem c3_cache_24h :
    (fetch_tvl (tvlOkEnv 0) initState "aave").2.2 = [NetCall.httpGet (tvlUrl "aave")] ∧
    (fetch_tvl (tvlOkEnv 86400) (fetch_tvl (tvlOkEnv 0) initState "aave").2.1 "aave").2.2 = [] ∧
    (fetch_tvl (tvlOkEnv 86400) (fetch_tvl (tvlOkEnv 0) initState "aave").2.1 "aave").1 =
      Json.int 42 := by
  exact ⟨rfl, rfl, rfl⟩

/-- C1 counterexample: with a connected default chain, monitor_events on the
invalid address "0xNotAnAddress" does return exactly the validation-error
object, but its outbound trace is NOT empty: the w3.is_connected() probe at
line 81, issued before address validation, already contacted the endpoint. -/
theorem c1_probe_counterexample :
    (monitor_events (raiseMonEnv "net") "0xNotAnAddress" "polygon-zkevm" "Transfer" none).1 =
      [("error", Json.str "Invalid contract address: 0xNotAnAddress")] ∧
    (monitor_events (raiseMonEnv "net") "0xNotAnAddress" "polygon-zkevm" "Transfer" none).2 =
      [NetCall.connProbe "polygon-zkevm"] ∧
    (monitor_events (raiseMonEnv "net") "0xNotAnAddress" "polygon-zkevm" "Transfer" none).2 ≠ [] := by
  refine ⟨rfl, rfl, ?_⟩
  intro h
  rw [show (monitor_events (raiseMonEnv "net") "0xNotAnAddress" "polygon-zkevm" "Transfer" none).2 =
    [NetCall.connProbe "polygon-zkevm"] from rfl] at h
  exact List.cons_ne_nil _ _ h

/-- C1 (amended): for every address failing format validation, on a supported
chain whose connectivity probe succeeds, monitor_events returns exactly the
validation-error object and track_transactions an error object, each after
only the single is_connected connectivity probe and no further outbound call. -/
theorem c1_invalid_address (env : MonitorEnv) (address chain event_name : String)
    (from_block : Option Int) (tx_count : Nat)
    (hchain : supportedChain chain = true)
    (hconn : env.is_connected chain = true)
    (haddr : Web3.is_address address = false) :
    monitor_events env address chain event_name from_block =
      ([("error", Json.str ("Invalid contract address: " ++ address))],
       [NetCall.connProbe chain]) ∧
    track_transactions env address chain tx_count =
      ([("error", Json.str ("Unknown format " ++ address ++
          ", attempted to normalize to checksum address"))],
       [NetCall.connProbe chain]) := by
  constructor
  · simp [monitor_events, hchain, hconn, haddr]
  · simp [track_transactions, hchain, hconn, toChecksumE, haddr]

/-- C1 witness: the amended statement at the concrete invalid address. -/
theorem c1_invalid_address_w :
    monitor_events (raiseMonEnv "net") "0xNotAnAddress" "scroll" "Transfer" none =
      ([("error", Json.str "Invalid contract address: 0xNotAnAddress")],
       [NetCall.connProbe "scroll"]) ∧
    track_transactions (raiseMonEnv "net") "0xNotAnAddress" "scroll" 10 =
      ([("error", Json.str ("Unknown format 0xNotAnAddress" ++
          ", attempted to normalize to checksum address"))],
       [NetCall.connProbe "scroll"]) := by
  have h := c1_invalid_address (raiseMonEnv "net") "0xNotAnAddress" "scroll" "Transfer" none 10
    (by decide) rfl (by decide)
  exact ⟨h.1, h.2⟩

theorem scanBlocks_cons_err (env : MonitorEnv) (addr : String) (txc b : Nat) (rest : List Nat)
    (acc : List Json) (e : String) (h : env.get_block b = Except.error e) :
    scanBlocks env addr txc (b :: rest) acc = ⟨acc, [b], some e⟩ := by
  simp [scanBlocks, h]

theorem scanBlocks_cons_brk (env : MonitorEnv) (addr : String) (txc b : Nat) (rest : List Nat)
    (acc : List Json) (blk : BlockData) (h : env.get_block b = Except.ok blk)
    (hbreak : (scanTxs env addr txc b acc blk.transactions).length ≥ txc) :
    scanBlocks env addr txc (b :: rest) acc =
      ⟨scanTxs env addr txc b acc blk.transactions, [b], none⟩ := by
  simp [scanBlocks, h, hbreak]

theorem scanBlocks_cons_go (env : MonitorEnv) (addr : String) (txc b : Nat) (rest : List Nat)
    (acc : List Json) (blk : BlockData) (h : env.get_block b = Except.ok blk)
    (hbreak : ¬ (scanTxs env addr txc b acc blk.transactions).length ≥ txc) :
    scanBlocks env addr txc (b :: rest) acc =
      ⟨(scanBlocks env addr txc rest (scanTxs env addr txc b acc blk.transactions)).collected,
       b :: (scanBlocks env addr txc rest (scanTxs env addr txc b acc blk.transactions)).fetched,
       (scanBlocks env addr txc rest (scanTxs env addr txc b acc blk.transactions)).fail⟩ := by
  simp [scanBlocks, h, hbreak]

theorem scanBlocks_fetched_le (env : MonitorEnv) (addr : String) (txc : Nat) :
    ∀ (blocks : List Nat) (acc : List Json),
      (scanBlocks env addr txc blocks acc).fetched.length ≤ blocks.length := by
  intro blocks
  induction blocks with
  | nil => intro acc; simp [scanBlocks]
  | cons b rest ih =>
    intro acc
    rcases hgb : env.get_block b with e | blk
    · rw [scanBlocks_cons_err env addr txc b rest acc e hgb]
      exact Nat.succ_le_succ (Nat.zero_le _)
    · by_cases hbreak : (scanTxs env addr txc b acc blk.transactions).length ≥ txc
      · rw [scanBlocks_cons_brk env addr txc b rest acc blk hgb hbreak]
        exact Nat.succ_le_succ (Nat.zero_le _)
      · rw [scanBlocks_cons_go env addr txc b rest acc blk hgb hbreak]
        exact Nat.succ_le_succ (ih _)

theorem scanBlocks_take_lt (env : MonitorEnv) (addr : String) (txc : Nat) :
    ∀ (blocks : List Nat) (acc : List Json) (k : Nat),
      k + 1 < (scanBlocks env addr txc blocks acc).fetched.length →
      (scanBlocks env addr txc (blocks.take (k + 1)) acc).collected.length < txc := by
  intro blocks
  induction blocks with
  | nil =>
    intro acc k h
    simp [scanBlocks] at h
  | cons b rest ih =>
    intro acc k h
    rcases hgb : env.get_block b with e | blk
    · rw [scanBlocks_cons_err env addr txc b rest acc e hgb] at h
      have h2 : k + 1 < 1 := h
      omega
    · by_cases hbreak : (scanTxs env addr txc b acc blk.transactions).length ≥ txc
      · rw [scanBlocks_cons_brk env addr txc b rest acc blk hgb hbreak] at h
        have h2 : k + 1 < 1 := h
        omega
      · rw [scanBlocks_cons_go env addr txc b rest acc blk hgb hbreak] at h
        have h2 : k + 1 <
            (scanBlocks env addr txc rest
              (scanTxs env addr txc b acc blk.transactions)).fetched.length + 1 := h
        cases k with
        | zero =>
          show (scanBlocks env addr txc [b] acc).collected.length < txc
          rw [scanBlocks_cons_go env addr txc b [] acc blk hgb hbreak]
          exact lt_of_not_le hbreak
        | succ k2 =>
          show (scanBlocks env addr txc
            (b :: List.take (k2 + 1) rest) acc).collected.length < txc
          rw [scanBlocks_cons_go env addr txc b (List.take (k2 + 1) rest) acc blk hgb hbreak]
          exact ih _ k2 (by omega)

theorem scanBlocks_complete (env : MonitorEnv) (addr : String) (txc : Nat) :
    ∀ (blocks : List Nat) (acc : List Json),
      (scanBlocks env addr txc blocks acc).fail = none →
      (scanBlocks env addr txc blocks acc).fetched.length = blocks.length ∨
      txc ≤ (scanBlocks env addr txc blocks acc).collected.length := by
  intro blocks
  induction blocks with
  | nil => intro acc _; left; simp [scanBlocks]
  | cons b rest ih =>
    intro acc hfail
    rcases hgb : env.get_block b with e | blk
    · rw [scanBlocks_cons_err env addr txc b rest acc e hgb] at hfail
      exact absurd hfail (Option.some_ne_none e)
    · by_cases hbreak : (scanTxs env addr txc b acc blk.transactions).length ≥ txc
      · rw [scanBlocks_cons_brk env addr txc b rest acc blk hgb hbreak]
        exact Or.inr hbreak
      · rw [scanBlocks_cons_go env addr txc b rest acc blk hgb hbreak] at hfail ⊢
        have hf2 : (scanBlocks env addr txc rest
            (scanTxs env addr txc b acc blk.transactions)).fail = none := hfail
        rcases ih (scanTxs env addr txc b acc blk.transactions) hf2 with h | h
        · exact Or.inl (congrArg (fun n => n + 1) h)
        · exact Or.inr h

theorem filter_getBlock_map (l : List Nat) :
    (l.map NetCall.getBlock).filter isGetBlockCall = l.map NetCall.getBlock := by
  induction l with
  | nil => rfl
  | cons b rest ih => simp [List.filter, isGetBlockCall, ih]

theorem countGetBlock_base (chain : String) (l : List Nat) :
    countGetBlock ([NetCall.connProbe chain, NetCall.rpcCall "eth_getTransactionCount",
      NetCall.rpcCall "eth_getBalance", NetCall.rpcCall "eth_blockNumber"] ++
      l.map NetCall.getBlock) = l.length := by
  simp [countGetBlock, List.filter_append, List.filter, isGetBlockCall, filter_getBlock_map]

theorem scanRange_len_le (cb : Nat) : (scanRange cb).length ≤ 100 := by
  simp only [scanRange, List.length_map, List.length_range]
  omega

/-- C6: track_transactions returns at most tx_count transactions and fetches at
most 100 blocks backward from the head; moreover the scan never fetches one
block more once tx_count records are collected, and it stops before exhausting
the (at most 100 block) range only because tx_count was reached or a call
raised. -/
theorem c6_scan_bounds (env : MonitorEnv) (address chain : String) (tx_count : Nat) :
    resultTxLen (track_transactions env address chain tx_count).1 ≤ tx_count ∧
    countGetBlock (track_transactions env address chain tx_count).2 ≤ 100 ∧
    (∀ addr2 current_block, toChecksumE env address = Except.ok addr2 →
      env.block_number = Except.ok current_block →
      (∀ k, k + 1 < (scanBlocks env addr2 tx_count (scanRange current_block) []).fetched.length →
        (scanBlocks env addr2 tx_count ((scanRange current_block).take (k + 1)) []).collected.length
          < tx_count) ∧
      ((scanBlocks env addr2 tx_count (scanRange current_block) []).fail = none →
        (scanBlocks env addr2 tx_count (scanRange current_block) []).fetched.length =
          (scanRange current_block).length ∨
        tx_count ≤ (scanBlocks env addr2 tx_count (scanRange current_block) []).collected.length)) := by
  refine ⟨?_, ?_, ?_⟩
  · unfold track_transactions
    repeat' split
    all_goals simp [resultTxLen, Dict.get?, List.length_take]
  · unfold track_transactions
    repeat' split
    all_goals
      first
      | (rw [countGetBlock_base]
         exact le_trans (scanBlocks_fetched_le _ _ _ _ _) (scanRange_len_le _))
      | simp [countGetBlock, List.filter, isGetBlockCall]
  · intro addr2 current_block h1 h2
    exact ⟨fun k hk => scanBlocks_take_lt env addr2 tx_count (scanRange current_block) [] k hk,
           fun hf => scanBlocks_complete env addr2 tx_count (scanRange current_block) [] hf⟩

/-- C6 witness: a concrete scan (head block 5, one matching transaction per
block, tx_count 2) obeying all three bounds; the early-stop bound is
discharged at k = 0, where the scan did fetch a second block. -/
theorem c6_scan_bounds_w :
    resultTxLen (track_transactions trackEnv addrA "scroll" 2).1 ≤ 2 ∧
    countGetBlock (track_transactions trackEnv addrA "scroll" 2).2 ≤ 100 ∧
    (scanBlocks trackEnv addrA 2 ((scanRange 5).take 1) []).collected.length < 2 := by
  have h := c6_scan_bounds trackEnv addrA "scroll" 2
  refine ⟨h.1, h.2.1, ?_⟩
  exact (h.2.2 addrA 5 rfl rfl).1 0 (by decide)

/-- C8: on a 200 response whose body carries a hex-string result,
query_blockchain with method "eth_blockNumber" returns its decimal value in the
block_number field; with any other method the block_number field is null. -/
theorem c8_block_number (env : AggEnv) :
    (∀ chain kvs s n,
      env.http_post (rpcUrlFor chain) (rpcPayload "eth_blockNumber") =
        Except.ok ⟨200, Json.obj kvs⟩ →
      Dict.get? kvs "result" = some (Json.str s) →
      pyIntStr16 s = Except.ok n →
      Dict.get? (query_blockchain env chain "eth_blockNumber").1 "block_number" =
        some (Json.int n)) ∧
    (∀ chain method kvs, ¬ method = "eth_blockNumber" →
      env.http_post (rpcUrlFor chain) (rpcPayload method) = Except.ok ⟨200, Json.obj kvs⟩ →
      Dict.get? (query_blockchain env chain method).1 "block_number" = some Json.null) := by
  constructor
  · intro chain kvs s n hpost hres hparse
    simp [query_blockchain, hpost, hres, pyIntJson16, hparse, Dict.get?]
  · intro chain method kvs hm hpost
    simp [query_blockchain, hpost, hm, Dict.get?]

/-- C8 witness: result "0x10" on scroll parses to block_number 16, and method
"eth_gasPrice" yields a null block_number. -/
theorem c8_block_number_w :
    Dict.get? (query_blockchain rpcEnv "scroll" "eth_blockNumber").1 "block_number" =
      some (Json.int 16) ∧
    Dict.get? (query_blockchain rpcEnv "scroll" "eth_gasPrice").1 "block_number" =
      some Json.null := by
  have h := c8_block_number rpcEnv
  exact ⟨h.1 "scroll" [("result", Json.str "0x10")] "0x10" 16 rfl rfl rfl,
         h.2 "scroll" "eth_gasPrice" [("result", Json.str "0x10")] (by decide) rfl⟩

theorem query_blockchain_calls (env : AggEnv) (chain method : String) :
    (query_blockchain env chain method).2 = [NetCall.httpPost (rpcUrlFor chain)] := by
  unfold query_blockchain
  repeat' split
  all_goals rfl

/-- C9: for a chain identifier outside the rpc_urls table, query_blockchain
performs no validation: its single outbound call goes to the polygon-zkevm
endpoint, and on success the unrecognized identifier is echoed in the chain
field of a result carrying no error field. -/
theorem c9_unknown_chain (env : AggEnv) (chain method : String)
    (h : supportedAggChain chain = false) :
    (query_blockchain env chain method).2 = [NetCall.httpPost "https://zkevm-rpc.com"] ∧
    (∀ kvs s n, env.http_post "https://zkevm-rpc.com" (rpcPayload method) =
        Except.ok ⟨200, Json.obj kvs⟩ →
      Dict.get? kvs "result" = some (Json.str s) →
      pyIntStr16 s = Except.ok n →
      Dict.get? (query_blockchain env chain method).1 "chain" = some (Json.str chain) ∧
      Dict.get? (query_blockchain env chain method).1 "error" = none) := by
  simp only [supportedAggChain, Bool.or_eq_false_iff, beq_eq_false_iff_ne, ne_eq] at h
  have hurl : rpcUrlFor chain = "https://zkevm-rpc.com" := by
    simp [rpcUrlFor, h.1.1, h.1.2, h.2, ZKEVM_RPC_URL]
  constructor
  · rw [query_blockchain_calls env chain method, hurl]
  · intro kvs s n hpost hres hparse
    by_cases hm : method = "eth_blockNumber"
    · subst hm
      constructor
      · simp [query_blockchain, hurl, hpost, hres, pyIntJson16, hparse, Dict.get?]
      · simp [query_blockchain, hurl, hpost, hres, pyIntJson16, hparse, Dict.get?]
    · constructor
      · simp [query_blockchain, hurl, hpost, hm, Dict.get?]
      · simp [query_blockchain, hurl, hpost, hm, Dict.get?]

/-- C9 witness: the unknown chain "fantom" is forwarded to the polygon-zkevm
endpoint and echoed back without a validation error. -/
theorem c9_unknown_chain_w :
    (query_blockchain rpcEnv "fantom" "eth_blockNumber").2 =
      [NetCall.httpPost "https://zkevm-rpc.com"] ∧
    Dict.get? (query_blockchain rpcEnv "fantom" "eth_blockNumber").1 "chain" =
      some (Json.str "fantom") ∧
    Dict.get? (query_blockchain rpcEnv "fantom" "eth_blockNumber").1 "error" = none := by
  have h := c9_unknown_chain rpcEnv "fantom" "eth_blockNumber" (by decide)
  have h2 := h.2 [("result", Json.str "0x10")] "0x10" 16 rfl rfl rfl
  exact ⟨h.1, h2.1, h2.2⟩

theorem fetch_tvl_hit (env : AggEnv) (st : AggState) (protocol : String) (t : Nat) (d : Json)
    (hc : st.cache ("tvl_" ++ protocol) = some (t, d)) (ht : tdSeconds env.now t < 3600) :
    fetch_tvl env st protocol = (d, st, []) := by
  simp [fetch_tvl, hc, ht]

theorem fetch_tvl_stale (env : AggEnv) (st : AggState) (protocol : String) (t : Nat) (d : Json)
    (hc : st.cache ("tvl_" ++ protocol) = some (t, d)) (ht : ¬ tdSeconds env.now t < 3600) :
    fetch_tvl env st protocol = fetchTvlFresh env st protocol := by
  simp [fetch_tvl, hc, ht]

theorem fetch_tvl_miss (env : AggEnv) (st : AggState) (protocol : String)
    (hc : st.cache ("tvl_" ++ protocol) = none) :
    fetch_tvl env st protocol = fetchTvlFresh env st protocol := by
  simp [fetch_tvl, hc]

theorem price_hit (env : AggEnv) (st : AggState) (token_id : String) (t : Nat) (d : Json)
    (hc : st.cache ("price_" ++ token_id) = some (t, d)) (ht : tdSeconds env.now t < 300) :
    get_token_price env st token_id = (d, st, []) := by
  simp [get_token_price, hc, ht]

theorem price_stale (env : AggEnv) (st : AggState) (token_id : String) (t : Nat) (d : Json)
    (hc : st.cache ("price_" ++ token_id) = some (t, d)) (ht : ¬ tdSeconds env.now t < 300) :
    get_token_price env st token_id = getPriceFresh env st token_id := by
  simp [get_token_price, hc, ht]

theorem price_miss (env : AggEnv) (st : AggState) (token_id : String)
    (hc : st.cache ("price_" ++ token_id) = none) :
    get_token_price env st token_id = getPriceFresh env st token_id := by
  simp [get_token_price, hc]

theorem fetchTvlFresh_cases (env : AggEnv) (st : AggState) (protocol : String) :
    ((fetchTvlFresh env st protocol).2.1 = st ∨
      (∃ body, env.http_get (tvlUrl protocol) = Except.ok ⟨200, body⟩ ∧
        (fetchTvlFresh env st protocol).1 = body ∧
        (fetchTvlFresh env st protocol).2.1.cache = fun k =>
          if k = "tvl_" ++ protocol then some (env.now, body) else st.cache k)) ∧
    (∀ e, env.http_get (tvlUrl protocol) = Except.error e →
      (fetchTvlFresh env st protocol).2.1 = st) ∧
    (∀ resp, env.http_get (tvlUrl protocol) = Except.ok resp → ¬ resp.status = 200 →
      (fetchTvlFresh env st protocol).2.1 = st) := by
  rcases hg : env.http_get (tvlUrl protocol) with e | resp
  · refine ⟨Or.inl ?_, fun e2 h2 => ?_, fun resp2 h2 _ => ?_⟩
    · simp [fetchTvlFresh, hg]
    · simp [fetchTvlFresh, hg]
    · cases h2
  · rcases resp with ⟨status, body⟩
    by_cases hs : status = 200
    · subst hs
      refine ⟨Or.inr ⟨body, rfl, ?_, ?_⟩, fun e2 h2 => ?_, fun resp2 h2 hs2 => ?_⟩
      · simp [fetchTvlFresh, hg]
      · simp [fetchTvlFresh, hg]
      · cases h2
      · injection h2 with h3
        subst h3
        exact absurd rfl hs2
    · refine ⟨Or.inl ?_, fun e2 h2 => ?_, fun resp2 h2 hs2 => ?_⟩
      · simp [fetchTvlFresh, hg, hs]
      · cases h2
      · simp [fetchTvlFresh, hg, hs]

theorem getPriceFresh_cases (env : AggEnv) (st : AggState) (token_id : String) :
    ((getPriceFresh env st token_id).2.1 = st ∨
      (∃ body d, env.http_get (priceUrl token_id) = Except.ok ⟨200, body⟩ ∧
        buildPriceResult env token_id body = Except.ok d ∧
        (getPriceFresh env st token_id).1 = Json.obj d ∧
        (getPriceFresh env st token_id).2.1.cache = fun k =>
          if k = "price_" ++ token_id then some (env.now, Json.obj d) else st.cache k)) ∧
    (∀ e, env.http_get (priceUrl token_id) = Except.error e →
      (getPriceFresh env st token_id).2.1 = st) ∧
    (∀ resp, env.http_get (priceUrl token_id) = Except.ok resp → ¬ resp.status = 200 →
      (getPriceFresh env st token_id).2.1 = st) := by
  rcases hg : env.http_get (priceUrl token_id) with e | resp
  · refine ⟨Or.inl ?_, fun e2 h2 => ?_, fun resp2 h2 _ => ?_⟩
    · simp [getPriceFresh, hg]
    · simp [getPriceFresh, hg]
    · cases h2
  · rcases resp with ⟨status, body⟩
    by_cases hs : status = 200
    · subst hs
      rcases hb : buildPriceResult env token_id body with e | d
      · refine ⟨Or.inl ?_, fun e2 h2 => ?_, fun resp2 h2 hs2 => ?_⟩
        · simp [getPriceFresh, hg, hb]
        · cases h2
        · injection h2 with h3
          subst h3
          exact absurd rfl hs2
      · refine ⟨Or.inr ⟨body, d, rfl, hb, ?_, ?_⟩, fun e2 h2 => ?_, fun resp2 h2 hs2 => ?_⟩
        · simp [getPriceFresh, hg, hb]
        · simp [getPriceFresh, hg, hb]
        · cases h2
        · injection h2 with h3
          subst h3
          exact absurd rfl hs2
    · refine ⟨Or.inl ?_, fun e2 h2 => ?_, fun resp2 h2 hs2 => ?_⟩
      · simp [getPriceFresh, hg, hs]
      · cases h2
      · simp [getPriceFresh, hg, hs]

/-- C10: the caches only ever receive successful payloads: each fetch_tvl or
get_token_price invocation either leaves the cache mapping unchanged or
extends it at its own key with the pair (fetch time, payload derived from a
status-200 response); any raising or non-200 HTTP interaction leaves the cache
unchanged. -/
theorem c10_cache_success_only (env : AggEnv) (st : AggState) (protocol token_id : String) :
    ((fetch_tvl env st protocol).2.1 = st ∨
      (∃ body, env.http_get (tvlUrl protocol) = Except.ok ⟨200, body⟩ ∧
        (fetch_tvl env st protocol).1 = body ∧
        (fetch_tvl env st protocol).2.1.cache = fun k =>
          if k = "tvl_" ++ protocol then some (env.now, body) else st.cache k)) ∧
    (∀ e, env.http_get (tvlUrl protocol) = Except.error e →
      (fetch_tvl env st protocol).2.1 = st) ∧
    (∀ resp, env.http_get (tvlUrl protocol) = Except.ok resp → ¬ resp.status = 200 →
      (fetch_tvl env st protocol).2.1 = st) ∧
    ((get_token_price env st token_id).2.1 = st ∨
      (∃ body d, env.http_get (priceUrl token_id) = Except.ok ⟨200, body⟩ ∧
        buildPriceResult env token_id body = Except.ok d ∧
        (get_token_price env st token_id).1 = Json.obj d ∧
        (get_token_price env st token_id).2.1.cache = fun k =>
          if k = "price_" ++ token_id then some (env.now, Json.obj d) else st.cache k)) ∧
    (∀ e, env.http_get (priceUrl token_id) = Except.error e →
      (get_token_price env st token_id).2.1 = st) ∧
    (∀ resp, env.http_get (priceUrl token_id) = Except.ok resp → ¬ resp.status = 200 →
      (get_token_price env st token_id).2.1 = st) := by
  have hf := fetchTvlFresh_cases env st protocol
  have hp := getPriceFresh_cases env st token_id
  refine ⟨?_, ?_, ?_, ?_, ?_, ?_⟩
  · rcases hc : st.cache ("tvl_" ++ protocol) with _ | ⟨t, d⟩
    · rw [fetch_tvl_miss env st protocol hc]
      exact hf.1
    · by_cases ht : tdSeconds env.now t < 3600
      · rw [fetch_tvl_hit env st protocol t d hc ht]
        exact Or.inl rfl
      · rw [fetch_tvl_stale env st protocol t d hc ht]
        exact hf.1
  · intro e he
    rcases hc : st.cache ("tvl_" ++ protocol) with _ | ⟨t, d⟩
    · rw [fetch_tvl_miss env st protocol hc]
      exact hf.2.1 e he
    · by_cases ht : tdSeconds env.now t < 3600
      · rw [fetch_tvl_hit env st protocol t d hc ht]
      · rw [fetch_tvl_stale env st protocol t d hc ht]
        exact hf.2.1 e he
  · intro resp hr hs
    rcases hc : st.cache ("tvl_" ++ protocol) with _ | ⟨t, d⟩
    · rw [fetch_tvl_miss env st protocol hc]
      exact hf.2.2 resp hr hs
    · by_cases ht : tdSeconds env.now t < 3600
      · rw [fetch_tvl_hit env st protocol t d hc ht]
      · rw [fetch_tvl_stale env st protocol t d hc ht]
        exact hf.2.2 resp hr hs
  · rcases hc : st.cache ("price_" ++ token_id) with _ | ⟨t, d⟩
    · rw [price_miss env st token_id hc]
      exact hp.1
    · by_cases ht : tdSeconds env.now t < 300
      · rw [price_hit env st token_id t d hc ht]
        exact Or.inl rfl
      · rw [price_stale env st token_id t d hc ht]
        exact hp.1
  · intro e he
    rcases hc : st.cache ("price_" ++ token_id) with _ | ⟨t, d⟩
    · rw [price_miss env st token_id hc]
      exact hp.2.1 e he
    · by_cases ht : tdSeconds env.now t < 300
      · rw [price_hit env st token_id t d hc ht]
      · rw [price_stale env st token_id t d hc ht]
        exact hp.2.1 e he
  · intro resp hr hs
    rcases hc : st.cache ("price_" ++ token_id) with _ | ⟨t, d⟩
    · rw [price_miss env st token_id hc]
      exact hp.2.2 resp hr hs
    · by_cases ht : tdSeconds env.now t < 300
      · rw [price_hit env st token_id t d hc ht]
      · rw [price_stale env st token_id t d hc ht]
        exact hp.2.2 resp hr hs

/-- C10 witness: with every HTTP request raising, both invocations leave the
initial (empty) cache unchanged. -/
theorem c10_cache_success_only_w :
    (fetch_tvl (raiseAggEnv "down") initState "aave").2.1 = initState ∧
    (get_token_price (raiseAggEnv "down") initState "ethereum").2.1 = initState := by
  have h := c10_cache_success_only (raiseAggEnv "down") initState "aave" "ethereum"
  exact ⟨h.2.1 "down" rfl, h.2.2.2.2.1 "down" rfl⟩

theorem monitor_events_wf (env : MonitorEnv) (ca chain en : String) (fb : Option Int) :
    dictOkOrErr (monitor_events env ca chain en fb).1 := by
  unfold dictOkOrErr isErrDict monitor_events
  repeat' split
  all_goals first
    | exact Or.inl ⟨_, _, rfl⟩
    | exact Or.inr rfl

theorem check_vulnerabilities_wf (env : MonitorEnv) (ca chain : String) :
    dictOkOrErr (check_vulnerabilities env ca chain).1 := by
  unfold dictOkOrErr isErrDict check_vulnerabilities
  repeat' split
  all_goals first
    | exact Or.inl ⟨_, _, rfl⟩
    | exact Or.inr rfl

theorem track_transactions_wf (env : MonitorEnv) (a chain : String) (n : Nat) :
    dictOkOrErr (track_transactions env a chain n).1 := by
  unfold dictOkOrErr isErrDict track_transactions
  repeat' split
  all_goals first
    | exact Or.inl ⟨_, _, rfl⟩
    | exact Or.inr rfl

theorem query_blockchain_wf (env : AggEnv) (chain method : String) :
    dictOkOrErr (query_blockchain env chain method).1 := by
  unfold dictOkOrErr isErrDict query_blockchain
  repeat' split
  all_goals first
    | exact Or.inl ⟨_, _, rfl⟩
    | exact Or.inr rfl

theorem get_protocol_data_wf (env : AggEnv) (p : String) :
    dictOkOrErr (get_protocol_data env p).1 := by
  unfold dictOkOrErr isErrDict get_protocol_data
  repeat' split
  all_goals first
    | exact Or.inl ⟨_, _, rfl⟩
    | exact Or.inr rfl

theorem fetchTvlFresh_shape (env : AggEnv) (st : AggState) (protocol : String) :
    (∃ s, (fetchTvlFresh env st protocol).1 =
        Json.obj [("error", Json.str s), ("protocol", Json.str protocol)]) ∨
    (∃ body, env.http_get (tvlUrl protocol) = Except.ok ⟨200, body⟩ ∧
      (fetchTvlFresh env st protocol).1 = body) := by
  rcases hg : env.http_get (tvlUrl protocol) with e | resp
  · exact Or.inl ⟨e, by simp [fetchTvlFresh, hg]⟩
  · rcases resp with ⟨status, body⟩
    by_cases hs : status = 200
    · subst hs
      exact Or.inr ⟨body, rfl, by simp [fetchTvlFresh, hg]⟩
    · exact Or.inl ⟨"HTTP " ++ toString status, by simp [fetchTvlFresh, hg, hs]⟩

theorem getPriceFresh_shape (env : AggEnv) (st : AggState) (token_id : String) :
    (∃ s, (getPriceFresh env st token_id).1 = Json.obj [("error", Json.str s)]) ∨
    (∃ body d, env.http_get (priceUrl token_id) = Except.ok ⟨200, body⟩ ∧
      buildPriceResult env token_id body = Except.ok d ∧
      (getPriceFresh env st token_id).1 = Json.obj d) := by
  rcases hg : env.http_get (priceUrl token_id) with e | resp
  · exact Or.inl ⟨e, by simp [getPriceFresh, hg]⟩
  · rcases resp with ⟨status, body⟩
    by_cases hs : status = 200
    · subst hs
      rcases hb : buildPriceResult env token_id body with e | d
      · exact Or.inl ⟨e, by simp [getPriceFresh, hg, hb]⟩
      · exact Or.inr ⟨body, d, rfl, hb, by simp [getPriceFresh, hg, hb]⟩
    · exact Or.inl ⟨"CoinGecko API error: " ++ toString status, by simp [getPriceFresh, hg, hs]⟩

theorem tvlShape_holds (env : AggEnv) (st : AggState) (protocol : String) :
    tvlShape env st protocol := by
  unfold tvlShape
  rcases hc : st.cache ("tvl_" ++ protocol) with _ | ⟨t, d⟩
  · rw [fetch_tvl_miss env st protocol hc]
    rcases fetchTvlFresh_shape env st protocol with h | h
    · exact Or.inl h
    · exact Or.inr (Or.inr h)
  · by_cases ht : tdSeconds env.now t < 3600
    · rw [fetch_tvl_hit env st protocol t d hc ht]
      exact Or.inr (Or.inl ⟨t, d, rfl, rfl⟩)
    · rw [fetch_tvl_stale env st protocol t d hc ht]
      rcases fetchTvlFresh_shape env st protocol with h | h
      · exact Or.inl h
      · exact Or.inr (Or.inr h)

theorem priceShape_holds (env : AggEnv) (st : AggState) (token_id : String) :
    priceShape env st token_id := by
  unfold priceShape
  rcases hc : st.cache ("price_" ++ token_id) with _ | ⟨t, d⟩
  · rw [price_miss env st token_id hc]
    rcases getPriceFresh_shape env st token_id with h | h
    · exact Or.inl h
    · exact Or.inr (Or.inr h)
  · by_cases ht : tdSeconds env.now t < 300
    · rw [price_hit env st token_id t d hc ht]
      exact Or.inr (Or.inl ⟨t, d, rfl, rfl⟩)
    · rw [price_stale env st token_id t d hc ht]
      rcases getPriceFresh_shape env st token_id with h | h
      · exact Or.inl h
      · exact Or.inr (Or.inr h)

theorem monitor_events_raise (m ca chain en : String) (fb : Option Int) :
    isErrDict (monitor_events (raiseMonEnv m) ca chain en fb).1 := by
  unfold isErrDict monitor_events
  repeat' split
  all_goals first
    | exact ⟨_, _, rfl⟩
    | simp_all [raiseMonEnv]

theorem check_vulnerabilities_raise (m ca chain : String) :
    isErrDict (check_vulnerabilities (raiseMonEnv m) ca chain).1 := by
  unfold isErrDict check_vulnerabilities
  repeat' split
  all_goals first
    | exact ⟨_, _, rfl⟩
    | simp_all [raiseMonEnv]

theorem track_transactions_raise (m a chain : String) (n : Nat) :
    isErrDict (track_transactions (raiseMonEnv m) a chain n).1 := by
  unfold isErrDict track_transactions
  repeat' split
  all_goals first
    | exact ⟨_, _, rfl⟩
    | simp_all [raiseMonEnv]

/-- C4: no tool invocation propagates an exception: every operation of the two
servers is embedded as a total function into result values; each result either
is an error object whose first field is an error string, or carries no error
field at all (for the two cache-returning operations: it is an error object, a
cached payload, or a 200-response payload); and in environments where every
outbound step raises, each operation still returns an error object. -/
theorem c4_no_crash :
    (∀ (env : MonitorEnv) (ca chain en : String) (fb : Option Int),
      dictOkOrErr (monitor_events env ca chain en fb).1) ∧
    (∀ (env : MonitorEnv) (ca chain : String),
      dictOkOrErr (check_vulnerabilities env ca chain).1) ∧
    (∀ (env : MonitorEnv) (a chain : String) (n : Nat),
      dictOkOrErr (track_transactions env a chain n).1) ∧
    (∀ (env : AggEnv) (chain method : String),
      dictOkOrErr (query_blockchain env chain method).1) ∧
    (∀ (env : AggEnv) (p : String), dictOkOrErr (get_protocol_data env p).1) ∧
    (∀ (env : AggEnv) (st : AggState) (p : String), tvlShape env st p) ∧
    (∀ (env : AggEnv) (st : AggState) (t : String), priceShape env st t) ∧
    (∀ (m ca chain en : String) (fb : Option Int),
      isErrDict (monitor_events (raiseMonEnv m) ca chain en fb).1) ∧
    (∀ (m ca chain : String), isErrDict (check_vulnerabilities (raiseMonEnv m) ca chain).1) ∧
    (∀ (m a chain : String) (n : Nat),
      isErrDict (track_transactions (raiseMonEnv m) a chain n).1) ∧
    (∀ (m protocol : String), (fetch_tvl (raiseAggEnv m) initState protocol).1 =
      Json.obj [("error", Json.str m), ("protocol", Json.str protocol)]) ∧
    (∀ (m chain method : String), (query_blockchain (raiseAggEnv m) chain method).1 =
      [("error", Json.str m), ("chain", Json.str chain)]) ∧
    (∀ (m p : String), (get_protocol_data (raiseAggEnv m) p).1 = [("error", Json.str m)]) ∧
    (∀ (m t : String), (get_token_price (raiseAggEnv m) initState t).1 =
      Json.obj [("error", Json.str m)]) :=
  ⟨monitor_events_wf, check_vulnerabilities_wf, track_transactions_wf, query_blockchain_wf,
   get_protocol_data_wf, tvlShape_holds, priceShape_holds, monitor_events_raise,
   check_vulnerabilities_raise, track_transactions_raise,
   fun _ _ => rfl, fun _ _ _ => rfl, fun _ _ => rfl, fun _ _ => rfl⟩
